import Mathlib

/-!
# Verification of the pubmed-cli synthesis / QA core

Shallow embedding of the literature-synthesis pipeline (`internal/synth`)
and the adaptive QA decision engine of the `pubmed-cli` repository,
together with proofs settling the frozen claims C1..C10.

Conventions of the embedding:
* Go strings are Lean `String`s; Go byte positions coincide with
  character positions because all constants involved are ASCII.
* Go `int` is embedded as `Int` (no claim exercises 64-bit overflow).
* Fallible Go functions (`(T, error)` returns) become `Except String T`,
  the `String` carrying the `fmt.Errorf` message.
* The LLM collaborator (`Complete(ctx, prompt, maxTokens)`) is embedded
  as a deterministic oracle indexed by call number, so that
  cancellation/failure part-way through a sequence of calls is the
  oracle returning `.error` from some index on.
-/

namespace PubmedCLI

/-! ## Go string primitives used by the sources -/

/-- Whether `p` is a prefix of `l` (Go `strings.HasPrefix` on rune lists). -/
def isPrefixList : List Char → List Char → Bool
  | [], _ => true
  | _ :: _, [] => false
  | p :: ps, c :: cs => p = c && isPrefixList ps cs

/-- Split on single-character whitespace boundaries, keeping empties
(helper for `goFields`). -/
def splitWhitespace : List Char → List Char → List (List Char)
  | [], acc => [acc.reverse]
  | c :: cs, acc =>
    if c.isWhitespace then acc.reverse :: splitWhitespace cs []
    else splitWhitespace cs (c :: acc)

/-- Go `strings.Fields`: split around runs of whitespace, dropping empties. -/
def goFields (s : String) : List String :=
  ((splitWhitespace s.data []).filter (fun w => w ≠ [])).map String.mk

/-- Go `strings.TrimSpace`: drop leading and trailing whitespace (Go's
`unicode.IsSpace` agrees with `Char.isWhitespace` on the ASCII data in
scope). -/
def goTrimSpace (s : String) : String :=
  String.mk (((s.data.dropWhile Char.isWhitespace).reverse.dropWhile
    Char.isWhitespace).reverse)

/-- Scan of `goSplit`: cut the remaining list at each non-overlapping
occurrence of the (non-empty) separator `s0 :: srest`. The `fuel`
argument (instantiated with the list length, an upper bound on the
number of steps) keeps the recursion structural. -/
def splitOnList (s0 : Char) (srest : List Char) :
    Nat → List Char → List Char → List (List Char)
  | _, [], acc => [acc.reverse]
  | 0, l, acc => [(acc.reverse ++ l)]
  | fuel + 1, c :: cs, acc =>
    if isPrefixList (s0 :: srest) (c :: cs) then
      acc.reverse :: splitOnList s0 srest fuel (cs.drop srest.length) []
    else splitOnList s0 srest fuel cs (c :: acc)

/-- Go `strings.Split`. Every call site in scope passes a non-empty
separator; for an empty one this returns the string whole. -/
def goSplit (s sep : String) : List String :=
  match sep.data with
  | [] => [s]
  | s0 :: srest => (splitOnList s0 srest s.data.length s.data []).map String.mk

/-- Go `strings.Contains`: `sub` occurs in `s` (all call sites pass a
non-empty `sub`, for which this split-based phrasing coincides). -/
def goContains (s sub : String) : Bool := (goSplit s sub).length > 1

/-- Go `strings.Join`. -/
def goJoin (parts : List String) (sep : String) : String :=
  match parts with
  | [] => ""
  | p :: rest => rest.foldl (fun acc x => acc ++ sep ++ x) p

/-- Go `strconv.Atoi` digit scan (helper for the modelled confidence
parser): all remaining characters must be decimal digits. -/
def digitsToNat (acc : Nat) : List Char → Option Nat
  | [] => some acc
  | c :: cs =>
    if '0' ≤ c ∧ c ≤ '9' then digitsToNat (acc * 10 + (c.toNat - '0'.toNat)) cs
    else none

/-- Go `strconv.Atoi`: optional sign followed by decimal digits. -/
def goAtoi (s : String) : Option Int :=
  match s.data with
  | [] => none
  | '-' :: rest =>
    match rest with
    | [] => none
    | _ => (digitsToNat 0 rest).map (fun n => -(n : Int))
  | '+' :: rest =>
    match rest with
    | [] => none
    | _ => (digitsToNat 0 rest).map (fun n => (n : Int))
  | l => (digitsToNat 0 l).map (fun n => (n : Int))

/-! ## eutils data model

The eutils type-declaration file is not under `src/` (only `fetch.go`
and tests, which use these fields, are). The fields below are the ones
the synthesis engine reads. -/

/-- An author of a PubMed article (fields populated by
`convertArticle` in `internal/eutils/fetch.go`). -/
structure Author where
  lastName : String := ""
  foreName : String := ""
  initials : String := ""
  collectiveName : String := ""
  deriving Repr, DecidableEq

/-- Modelled from the spec: `Author.FullName` (its declaring file is not
under `src/`; the spec describes an author as "either a personal name or
a collective/group name"). A collective name is returned as is; a
personal name is "ForeName LastName". No claim depends on its internals. -/
def Author.fullName (a : Author) : String :=
  if a.collectiveName ≠ "" then a.collectiveName
  else goTrimSpace (a.foreName ++ " " ++ a.lastName)

/-- Modelled from the spec: a CandidateDocument — "identifier, title,
abstract, authors (ordered list), publication year, journal, DOI"
(the eutils `Article` declaration file is not under `src/`; these are
exactly the fields the synthesis engine reads). -/
structure Article where
  pmid : String := ""
  title : String := ""
  abstract : String := ""
  authors : List Author := []
  year : String := ""
  journal : String := ""
  doi : String := ""
  deriving Repr, DecidableEq

/-- Result of `eutils.Client.Search` (fields used by the engine). -/
structure SearchResult where
  count : Int := 0
  ids : List String := []
  deriving Repr, DecidableEq

/-! ## synth data model (`internal/synth/engine.go`) -/

/-- `synth.Config` — controls synthesis behavior. -/
structure Config where
  papersToUse : Int
  papersToSearch : Int
  relevanceThreshold : Int
  targetWords : Int
  citationStyle : String
  deriving Repr, DecidableEq

/-- `synth.DefaultConfig`. -/
def DefaultConfig : Config :=
  { papersToUse := 5
    papersToSearch := 30
    relevanceThreshold := 7
    targetWords := 250
    citationStyle := "apa" }

/-- `synth.ScoredPaper`. -/
structure ScoredPaper where
  article : Article
  relevanceScore : Int
  deriving Repr, DecidableEq

/-- `synth.Reference`. `authorsList` exists in the `bibtex.go` revision
of the struct (the copy of `engine.go` under `src/` predates it and
leaves it empty). -/
structure Reference where
  key : String := ""
  pmid : String := ""
  citationAPA : String := ""
  relevanceScore : Int := 0
  doi : String := ""
  title : String := ""
  abstract : String := ""
  year : String := ""
  authors : String := ""
  journal : String := ""
  authorsList : List String := []
  deriving Repr, DecidableEq

/-- `synth.TokenUsage`. -/
structure TokenUsage where
  input : Int := 0
  output : Int := 0
  total : Int := 0
  deriving Repr, DecidableEq

/-- `synth.Result`. -/
structure Result where
  question : String := ""
  synthesis : String := ""
  papersSearched : Nat := 0
  papersScored : Nat := 0
  papersUsed : Nat := 0
  references : List Reference := []
  ris : String := ""
  tokens : TokenUsage := {}
  deriving Repr, DecidableEq

/-! ## relevance.go -/

/-- `truncate` (relevance.go): truncate to at most `maxLen` runes,
appending `"..."` when truncation happened. -/
def truncate (s : String) (maxLen : Int) : String :=
  if maxLen ≤ 0 then ""
  else
    let r := s.data
    if (r.length : Int) ≤ maxLen then s
    else String.mk (r.take maxLen.toNat) ++ "..."

/-- ASCII word character, as used by Go's regexp `\b` assertion. -/
def isWordChar (c : Char) : Bool :=
  ('0' ≤ c ∧ c ≤ '9') || ('a' ≤ c ∧ c ≤ 'z') || ('A' ≤ c ∧ c ≤ 'Z') || c = '_'

/-- Whether the head of a character list is a word character
(an empty list counts as a non-word position). -/
def headIsWord : List Char → Bool
  | [] => false
  | c :: _ => isWordChar c

/-- Leftmost match of Go's `scoreRe = \b(10|[1-9])\b` over a character
list, carrying the previous character to decide the leading word
boundary. At equal start positions the alternative `10` is tried before
`[1-9]`, matching Go's leftmost-first regexp semantics. Returns the
matched value. -/
def scanScore (prev : Option Char) : List Char → Option Int
  | [] => none
  | c :: cs =>
    let prevWord := match prev with
      | none => false
      | some p => isWordChar p
    if !prevWord ∧ c = '1' ∧ cs.head? = some '0' ∧ !headIsWord cs.tail then
      some 10
    else if !prevWord ∧ '1' ≤ c ∧ c ≤ '9' ∧ !headIsWord cs then
      some ((c.toNat : Int) - ('0'.toNat : Int))
    else
      scanScore (some c) cs

/-- `parseScore` (relevance.go): first standalone `10|[1-9]` token of the
trimmed response; `5` when none parses into the 1..10 range. -/
def parseScore (resp : String) : Int :=
  let t := goTrimSpace resp
  match scanScore none t.data with
  | some score => if 1 ≤ score ∧ score ≤ 10 then score else 5
  | none => 5

/-- The rubric prompt built by `scoreArticleRelevance`. -/
def scorePrompt (question : String) (article : Article) : String :=
  "Rate how relevant this paper is to the research question.\n\n" ++
  "Question: " ++ question ++ "\n\n" ++
  "Paper Title: " ++ article.title ++ "\n" ++
  "Abstract: " ++ truncate article.abstract 500 ++ "\n\n" ++
  "Rate relevance from 1-10 where:\n" ++
  "1-3 = Not relevant (different topic, population, or scope)\n" ++
  "4-6 = Somewhat relevant (related but not directly addressing the question)\n" ++
  "7-9 = Highly relevant (directly addresses the question)\n" ++
  "10 = Perfect match (exactly what the question asks about)\n\n" ++
  "Respond with only the number (1-10):"

/-- The LLM collaborator: `Complete(ctx, prompt, maxTokens)` as a
deterministic oracle over the call index. A context that is cancelled
part-way through a call sequence is an oracle returning `.error` from
some index on. -/
def Oracle := Nat → String → Int → Except String String

/-- `scoreArticleRelevance` (relevance.go): nil-handle checks, rubric
prompt, one `Complete` call (the `idx`-th of the run), score parsing and
the `len(prompt)/4 + 5` token estimate. -/
def scoreArticleRelevance (llm : Option Oracle) (idx : Nat) (question : String)
    (article : Option Article) : Except String (Int × Int) :=
  match llm with
  | none => .error "LLM client is nil"
  | some o =>
    match article with
    | none => .error "article is nil"
    | some a =>
      let prompt := scorePrompt question a
      match o idx prompt 10 with
      | .error e => .error e
      | .ok resp =>
        let score := parseScore resp
        let tokensUsed : Int := (prompt.length : Int) / 4 + 5
        .ok (score, tokensUsed)

/-! ## ris.go (the revision with `sanitizeRIS`) -/

/-- Go `strings.ReplaceAll s "\r\n" " "`: leftmost non-overlapping scan. -/
def replaceCRLF : List Char → List Char
  | [] => []
  | [c] => [c]
  | c1 :: c2 :: rest =>
    if c1 = '\r' ∧ c2 = '\n' then ' ' :: replaceCRLF rest
    else c1 :: replaceCRLF (c2 :: rest)

/-- `sanitizeRIS`: replace newlines/tabs with spaces so a field value
cannot break the line-oriented RIS format, then trim. -/
def sanitizeRIS (s : String) : String :=
  let cs := replaceCRLF s.data
  let cs := cs.map (fun c => if c = '\n' then ' ' else c)
  let cs := cs.map (fun c => if c = '\r' then ' ' else c)
  let cs := cs.map (fun c => if c = '\t' then ' ' else c)
  goTrimSpace (String.mk cs)

/-- `parseAuthorsForRIS`: recover individual authors from the
human-readable author string ("X et al." keeps the first author,
"A & B" splits on the ampersand). -/
def parseAuthorsForRIS (authorStr0 : String) : List String :=
  let authorStr := goTrimSpace authorStr0
  if authorStr = "" then ["Unknown"]
  else
    let etal :=
      if goContains authorStr "et al." then
        match (goSplit authorStr " et al.").head? with
        | some p =>
          let first := goTrimSpace p
          if first ≠ "" then some [first] else none
        | none => none
      else none
    match etal with
    | some r => r
    | none =>
      let amp :=
        if goContains authorStr " & " then
          let result := ((goSplit authorStr " & ").map goTrimSpace).filter (fun a => a ≠ "")
          if result.length > 0 then some result else none
        else none
      match amp with
      | some r => r
      | none => [authorStr]

/-- The tagged lines of `generateRISEntry`, in emission order (the Go
function accumulates this `lines` slice and joins it with `"\n"`). -/
def risLines (ref : Reference) : List String :=
  ["TY  - JOUR"]
  ++ (parseAuthorsForRIS ref.authors).map (fun author => "AU  - " ++ sanitizeRIS author)
  ++ ["TI  - " ++ sanitizeRIS ref.title]
  ++ (if ref.journal ≠ "" then ["JO  - " ++ sanitizeRIS ref.journal] else [])
  ++ (if ref.year ≠ "" then ["PY  - " ++ sanitizeRIS ref.year] else [])
  ++ (if ref.doi ≠ "" then ["DO  - " ++ sanitizeRIS ref.doi] else [])
  ++ (if ref.pmid ≠ "" then ["AN  - " ++ sanitizeRIS ref.pmid] else [])
  ++ (if ref.abstract ≠ "" then
        let abstract :=
          if ref.abstract.data.length > 5000 then
            String.mk (ref.abstract.data.take 5000) ++ "..."
          else ref.abstract
        ["AB  - " ++ sanitizeRIS abstract]
      else [])
  ++ ["DB  - PubMed"]
  ++ (if ref.pmid ≠ "" then
        ["UR  - https://pubmed.ncbi.nlm.nih.gov/" ++ sanitizeRIS ref.pmid ++ "/"]
      else [])
  ++ ["ER  -"]

/-- `generateRISEntry`. -/
def generateRISEntry (ref : Reference) : String := goJoin (risLines ref) "\n"

/-- `GenerateRIS`. -/
def GenerateRIS (refs : List Reference) : String :=
  let parts := refs.map generateRISEntry
  if parts.length = 0 then "" else goJoin parts "\n\n" ++ "\n"

/-! ## bibtex.go -/

/-- The loop body of `alphaSuffix` on `m = n - 1`: bijective base-26
numeral over `a..z`, least significant character last. The `fuel`
argument (instantiated with `m`, an upper bound on the number of
iterations) keeps the recursion structural; only `m = 0` reaches the
fuel-0 base case, where the value coincides. -/
def alphaSuffixCoreFuel : Nat → Nat → List Char
  | 0, m => [Char.ofNat ('a'.toNat + m % 26)]
  | fuel + 1, m =>
    if m < 26 then [Char.ofNat ('a'.toNat + m)]
    else alphaSuffixCoreFuel fuel (m / 26 - 1) ++ [Char.ofNat ('a'.toNat + m % 26)]

/-- The loop of `alphaSuffix` on `m = n - 1`. -/
def alphaSuffixCore (m : Nat) : List Char :=
  alphaSuffixCoreFuel m m

/-- `alphaSuffix`: `a, b, ..., z, aa, ab, ...` for `1, 2, ..., 26, 27, ...`;
empty for `n ≤ 0`. -/
def alphaSuffix (n : Int) : String :=
  if n ≤ 0 then "" else String.mk (alphaSuffixCore (n - 1).toNat)

/-- ASCII letter or digit (the characters `sanitizeBibTeXKey` keeps:
its `r > 127` skip is subsumed because these ranges are ASCII). -/
def isAsciiAlnum (c : Char) : Bool :=
  ('a' ≤ c ∧ c ≤ 'z') || ('A' ≤ c ∧ c ≤ 'Z') || ('0' ≤ c ∧ c ≤ '9')

/-- `sanitizeBibTeXKey`: keep ASCII letters/digits, prefix `Ref` if the
result starts with a digit, cap at 64 characters. -/
def sanitizeBibTeXKey (s0 : String) : String :=
  let s := goTrimSpace s0
  if s = "" then ""
  else
    let out := s.data.filter isAsciiAlnum
    match out with
    | [] => ""
    | c :: _ =>
      let out := if '0' ≤ c ∧ c ≤ '9' then "Ref".data ++ out else out
      let out := if out.length > 64 then out.take 64 else out
      String.mk out

/-- The scan of `yearForBibTeXKey`: first run of 4 consecutive digits. -/
def yearForBibTeXKeyAux : List Char → Option String
  | c0 :: c1 :: c2 :: c3 :: rest =>
    if c0.isDigit ∧ c1.isDigit ∧ c2.isDigit ∧ c3.isDigit then
      some (String.mk [c0, c1, c2, c3])
    else yearForBibTeXKeyAux (c1 :: c2 :: c3 :: rest)
  | _ => none

/-- `yearForBibTeXKey`: first 4 consecutive digits of the year field,
`"nd"` otherwise (Go's `unicode.IsDigit` agrees with `Char.isDigit` on
the ASCII data in scope). -/
def yearForBibTeXKey (year0 : String) : String :=
  let year := goTrimSpace year0
  if year = "" then "nd"
  else (yearForBibTeXKeyAux year.data).getD "nd"

/-- `bibtexKeyAuthorToken`: surname token of the first author — the part
before a comma if present, otherwise the last whitespace field. -/
def bibtexKeyAuthorToken (author0 : String) : String :=
  let author := goTrimSpace author0
  if author = "" then "Unknown"
  else
    let author := ((goSplit author ",").head?).getD author
    match (goFields author).getLast? with
    | none => "Unknown"
    | some t => t

/-- `bibtexCitationKeyBase`. -/
def bibtexCitationKeyBase (ref : Reference) : String :=
  let firstAuthor :=
    match ref.authorsList with
    | a :: _ => a
    | [] =>
      let authorStr := goTrimSpace ref.authors
      if goContains authorStr " & " then
        goTrimSpace (((goSplit authorStr " & ").head?).getD "")
      else if goContains authorStr "et al." then
        goTrimSpace (((goSplit authorStr " et al.").head?).getD "")
      else authorStr
  let authorToken := bibtexKeyAuthorToken firstAuthor
  let year := yearForBibTeXKey ref.year
  let base := sanitizeBibTeXKey (authorToken ++ year)
  if base = "" then "Ref" ++ year else base

/-- The loop of `generateBibTeXCitationKeys`, with the `seen` map as a
function from base key to its running count. -/
def genBibKeysLoop : List Reference → Nat → (String → Nat) → List String
  | [], _, _ => []
  | ref :: rest, i, seen =>
    let base0 := bibtexCitationKeyBase ref
    let base := if base0 = "" then "Ref" ++ toString (i + 1) else base0
    let dup := seen base
    let key := if dup = 0 then base else base ++ alphaSuffix (dup : Int)
    key :: genBibKeysLoop rest (i + 1) (fun b => if b = base then dup + 1 else seen b)

/-- `generateBibTeXCitationKeys`. -/
def generateBibTeXCitationKeys (refs : List Reference) : List String :=
  genBibKeysLoop refs 0 (fun _ => 0)

/-! ## engine.go -/

/-- `synth.Engine`: the two collaborator handles plus static config.
The LLM handle is optional because Go interface values can be nil
(`scoreArticleRelevance` checks for that). -/
structure Engine where
  llm : Option Oracle
  search : String → Int → Except String SearchResult
  fetch : List String → Except String (List Article)
  cfg : Config

/-- One `Complete` call through the optional handle. Go would panic on a
nil interface at the `generateSynthesis`/`SynthesizePMID` call sites;
the embedding returns an error there instead — no claim reaches that
branch. -/
def callComplete (llm : Option Oracle) (idx : Nat) (prompt : String)
    (maxTokens : Int) : Except String String :=
  match llm with
  | none => .error "nil LLM client"
  | some o => o idx prompt maxTokens

/-- The sequential per-document loop of `scoreRelevance`: each document
produces one `Complete` call (call indices advance by one per document),
a failed call degrades to the neutral score 5 and the loop continues.
Returns the scored list, the accumulated token estimate and the next
call index. -/
def scoreRelevanceLoop (llm : Option Oracle) (question : String) :
    List Article → Nat → Int → List ScoredPaper × Int × Nat
  | [], idx, tok => ([], tok, idx)
  | a :: rest, idx, tok =>
    let (score, tokens) :=
      match scoreArticleRelevance llm idx question (some a) with
      | .error _ => ((5 : Int), (0 : Int))
      | .ok (s, t) => (s, t)
    let (scored, totTok, endIdx) :=
      scoreRelevanceLoop llm question rest (idx + 1) (tok + tokens)
    ({ article := a, relevanceScore := score } :: scored, totTok, endIdx)

/-- `Engine.scoreRelevance`: runs the loop and returns a nil error —
the Go body's only return is `return scored, totalTokens, nil`. -/
def scoreRelevance (llm : Option Oracle) (question : String)
    (articles : List Article) (startIdx : Nat) :
    Except String (List ScoredPaper × Int × Nat) :=
  .ok (scoreRelevanceLoop llm question articles startIdx 0)

/-- `initials` (engine.go): first character of each whitespace field of
the fore name, joined with `". "` (Go takes the first byte; ASCII in
scope). -/
def initials (foreName : String) : String :=
  let parts := goFields foreName
  let inits := (parts.filter (fun p => p.length > 0)).map
    (fun p => String.mk (p.data.take 1))
  goJoin inits ". "

/-- One APA-formatted author, `"Last, F."`. -/
def apaAuthor (a : Author) : String :=
  a.lastName ++ ", " ++ initials a.foreName ++ "."

/-- The indexed author loop of `formatAPA`'s 2–7 author branch:
`"& "` is prefixed exactly at the final index. -/
def apaParts (total : Nat) : Nat → List Author → List String
  | _, [] => []
  | i, a :: rest =>
    (if i = total - 1 then "& " ++ apaAuthor a else apaAuthor a) ::
      apaParts total (i + 1) rest

/-- The author-list portion of `formatAPA` (computed inline in the Go
function; factored here so theorems can speak about it). -/
def apaAuthors (authors : List Author) : String :=
  match authors with
  | [] => "Unknown"
  | [a] => apaAuthor a
  | l =>
    if l.length ≤ 7 then
      goJoin (apaParts l.length 0 l) ", "
    else
      let parts := (l.take 6).map apaAuthor
      let last := (l.getLast?).getD {}
      goJoin (parts ++ ["..."] ++ ["& " ++ apaAuthor last]) ", "

/-- `formatAPA` (engine.go). -/
def formatAPA (article : Article) : String :=
  let authors := apaAuthors article.authors
  let citation :=
    authors ++ " (" ++ article.year ++ "). " ++ article.title ++ ". " ++
    article.journal ++ "."
  if article.doi ≠ "" then
    citation ++ " https://doi.org/" ++ article.doi
  else citation

/-- `buildReference` (engine.go). The `src` revision of `engine.go`
does not populate `authorsList`. -/
def buildReference (article : Article) (num : Int) (relevance : Int) : Reference :=
  let authorStr :=
    match article.authors with
    | [] => ""
    | [a] => a.fullName
    | a :: _ :: _ :: _ => a.fullName ++ " et al."
    | [a, b] => a.fullName ++ " & " ++ b.fullName
  let apa := formatAPA article
  let key :=
    match article.authors with
    | [] => toString num
    | a :: _ =>
      let parts := goSplit a.fullName " "
      let lastName := (parts.getLast?).getD ""
      lastName ++ " " ++ article.year
  { key := key
    pmid := article.pmid
    citationAPA := apa
    relevanceScore := relevance
    doi := article.doi
    title := article.title
    abstract := article.abstract
    year := article.year
    authors := authorStr
    journal := article.journal }

/-- The per-paper citation key built by `generateSynthesis`. -/
def synthCiteKey (sp : ScoredPaper) : String :=
  let firstAuthor :=
    match sp.article.authors with
    | [] => "Unknown"
    | a :: _ => ((goSplit a.fullName " ").getLast?).getD "Unknown"
  firstAuthor ++ " et al., " ++ sp.article.year

/-- The synthesis prompt of `generateSynthesis`. -/
def synthesisPrompt (cfg : Config) (question : String)
    (papers : List ScoredPaper) : String :=
  let contextParts := papers.enum.map (fun p =>
    "[" ++ toString (p.1 + 1) ++ "] " ++ synthCiteKey p.2 ++ " (" ++
    p.2.article.pmid ++ ")\nTitle: " ++ p.2.article.title ++
    "\nAbstract: " ++ p.2.article.abstract ++ "\n")
  "You are a scientific writer. Synthesize the following research papers to answer this question:\n\n" ++
  "Question: " ++ question ++ "\n\nPapers:\n" ++
  goJoin contextParts "\n---\n" ++
  "\n\nWrite a synthesis of approximately " ++ toString cfg.targetWords ++
  " words that:\n1. Directly addresses the question\n2. Integrates findings across papers\n" ++
  "3. Uses inline citations like (Smith et al., 2024)\n4. Maintains academic tone\n" ++
  "5. Notes any conflicting findings\n\nAvailable citations: " ++
  goJoin (papers.map synthCiteKey) "; " ++ "\n\nWrite the synthesis:"

/-- `Engine.generateSynthesis`: one `Complete` call at index `idx`;
token estimate `len(synthesis)/4`. -/
def generateSynthesis (llm : Option Oracle) (cfg : Config) (question : String)
    (papers : List ScoredPaper) (idx : Nat) :
    Except String (String × Int × Nat) :=
  let prompt := synthesisPrompt cfg question papers
  match callComplete llm idx prompt (cfg.targetWords * 3) with
  | .error e => .error e
  | .ok syn => .ok (goTrimSpace syn, (syn.length : Int) / 4, idx + 1)

/-- `Engine.Synthesize`, parameterized by the sorting function used at
the `sort.Slice(relevant, ...score descending...)` call. Go's
`sort.Slice` is deterministic but documented as "not guaranteed to be
stable"; `sortSliceSpec` below captures its documented contract.
Go would panic slicing `relevant[:PapersToUse]` for a negative
`PapersToUse`; the embedding's `Int.toNat` makes that branch total, and
theorems touching it assume `0 ≤ papersToUse`. -/
def Synthesize (sortFn : List ScoredPaper → List ScoredPaper)
    (eng : Engine) (question : String) : Except String Result :=
  match eng.search question eng.cfg.papersToSearch with
  | .error e => .error ("search: " ++ e)
  | .ok sr =>
    if sr.ids.length = 0 then .error ("no papers found for query: " ++ question)
    else
      match eng.fetch sr.ids with
      | .error e => .error ("fetch: " ++ e)
      | .ok articles =>
        match scoreRelevance eng.llm question articles 0 with
        | .error e => .error ("relevance scoring: " ++ e)
        | .ok (scored, tokIn, idx1) =>
          let relevant0 := scored.filter
            (fun sp => sp.relevanceScore ≥ eng.cfg.relevanceThreshold)
          let sorted := sortFn relevant0
          let relevant :=
            if (sorted.length : Int) > eng.cfg.papersToUse then
              sorted.take eng.cfg.papersToUse.toNat
            else sorted
          if relevant.length = 0 then
            .error ("no papers met relevance threshold (" ++
              toString eng.cfg.relevanceThreshold ++ ") for: " ++ question)
          else
            let refs := relevant.enum.map
              (fun p => buildReference p.2.article ((p.1 : Int) + 1) p.2.relevanceScore)
            match generateSynthesis eng.llm eng.cfg question relevant idx1 with
            | .error e => .error ("synthesis: " ++ e)
            | .ok (syn, tokOut, _) =>
              .ok { question := question
                    synthesis := syn
                    papersSearched := sr.ids.length
                    papersScored := scored.length
                    papersUsed := relevant.length
                    references := refs
                    ris := GenerateRIS refs
                    tokens := { input := tokIn, output := tokOut, total := tokIn + tokOut } }

/-- The deep-dive prompt of `SynthesizePMID`. -/
def deepDivePrompt (cfg : Config) (article : Article) : String :=
  "Summarize this research paper in approximately " ++ toString cfg.targetWords ++
  " words. Include:\n- Main objective/question\n- Key methods\n- Primary findings\n" ++
  "- Implications/conclusions\n\nTitle: " ++ article.title ++
  "\n\nAbstract:\n" ++ article.abstract ++
  "\n\nWrite a cohesive summary paragraph. Cite as (Author et al., " ++
  article.year ++ ")."

/-- `Engine.SynthesizePMID`, instrumented with the list of prompts sent
to the LLM collaborator (second component), so that "no relevance
scoring call is ever made" is a provable statement. -/
def SynthesizePMIDT (eng : Engine) (pmid : String) :
    Except String Result × List String :=
  match eng.fetch [pmid] with
  | .error e => (.error ("fetch: " ++ e), [])
  | .ok articles =>
    match articles with
    | [] => (.error ("article not found: " ++ pmid), [])
    | article :: _ =>
      let ref := buildReference article 1 10
      let prompt := deepDivePrompt eng.cfg article
      match callComplete eng.llm 0 prompt (eng.cfg.targetWords * 2) with
      | .error e => (.error ("synthesis: " ++ e), [prompt])
      | .ok syn =>
        (.ok { question := "Deep dive: PMID " ++ pmid
               papersSearched := 1
               papersScored := 1
               papersUsed := 1
               references := [ref]
               synthesis := goTrimSpace syn
               tokens := { input := (prompt.length : Int) / 4
                           output := (syn.length : Int) / 4
                           total := (prompt.length : Int) / 4 + (syn.length : Int) / 4 }
               ris := GenerateRIS [ref] }, [prompt])

/-- `Engine.SynthesizePMID` proper. -/
def SynthesizePMID (eng : Engine) (pmid : String) : Except String Result :=
  (SynthesizePMIDT eng pmid).1

/-! ## The `synth` CLI command's flag handling (part of `runSynth`) -/

/-- The flag validation and breadth adjustment of the `synth` command
(`runSynth`): rejects out-of-range flags and raises `--search` to
`--papers` when papers exceed search breadth. Returns the
`(PapersToUse, PapersToSearch)` pair put into the `synth.Config`. -/
def validateSynthFlags (papers search words relevance : Int) :
    Except String (Int × Int) :=
  if papers < 1 then .error "--papers must be >= 1"
  else if search < 1 then .error "--search must be >= 1"
  else if words < 1 then .error "--words must be >= 1"
  else if relevance < 1 ∨ relevance > 10 then .error "--relevance must be 1-10"
  else if papers > search then .ok (papers, papers)
  else .ok (papers, search)

/-! ## The QA decision engine (spec-modelled)

The `internal/qa` engine source is not under `src/` — only its test
file is. The definitions below are modelled from the spec. -/

/-- `qa.Strategy`. -/
inductive Strategy where
  | parametric
  | retrieval
  deriving Repr, DecidableEq

/-- Modelled from the spec: the qa `Config` (fields witnessed by the qa
test file: `ConfidenceThreshold`, `MaxResults`, `ForceRetrieval`,
`ForceParametric`). -/
structure QAConfig where
  confidenceThreshold : Int
  maxResults : Int
  forceRetrieval : Bool
  forceParametric : Bool
  deriving Repr, DecidableEq

/-- Modelled from the spec: the qa `DefaultConfig` (threshold 7,
3 results, no forcing — the values asserted by `TestDefaultConfig`). -/
def qaDefaultConfig : QAConfig :=
  { confidenceThreshold := 7, maxResults := 3
    forceRetrieval := false, forceParametric := false }

/-- Modelled from the spec: parsing the `CONFIDENCE:` line of a
structured response — "integer 1–10 … Default/fallback value is 5
(neutral) when parsing fails". -/
def parseConfidence (resp : String) : Int :=
  let line := ((goSplit resp "\n").filterMap (fun l =>
    let t := goTrimSpace l
    if isPrefixList "CONFIDENCE:".data t.data then
      some (goTrimSpace (String.mk (t.data.drop 11)))
    else none)).head?
  match line with
  | some v =>
    match goAtoi v with
    | some n => if 1 ≤ n ∧ n ≤ 10 then n else 5
    | none => 5
  | none => 5

/-- Modelled from the spec: the tentative answer line of a structured
response ("a confidence line and a tentative answer line"). -/
def parseAnswerLine (resp : String) : String :=
  let line := ((goSplit resp "\n").filterMap (fun l =>
    let t := goTrimSpace l
    if isPrefixList "ANSWER:".data t.data then
      some (goTrimSpace (String.mk (t.data.drop 7)))
    else none)).head?
  match line with
  | some a => a
  | none => goTrimSpace resp

/-- Modelled from the spec: the strategy decision of `Engine.Answer`
(§4.6 transition rules, in priority order). `confResp` is the
collaborator's structured confidence response — consulted only when no
forcing flag applies and novelty is false. Returns the strategy, the
confidence recorded for the result (0 when never computed), and the
tentative answer when it is used directly. -/
def answerDecision (cfg : QAConfig) (novel : Bool) (confResp : String) :
    Strategy × Int × Option String :=
  if cfg.forceParametric then (Strategy.parametric, 0, none)
  else if cfg.forceRetrieval then (Strategy.retrieval, 0, none)
  else if novel then (Strategy.retrieval, 0, none)
  else
    let conf := parseConfidence confResp
    if conf ≥ cfg.confidenceThreshold then
      (Strategy.parametric, conf, some (parseAnswerLine confResp))
    else (Strategy.retrieval, conf, none)

/-! ## Helper lemmas about the scoring loop -/

/-- The score the loop records for one document: the parsed score on
success, the neutral 5 on any failure (mirrors the loop body's
`if err != nil { score = 5 }`). -/
def scoreOf (llm : Option Oracle) (question : String) (idx : Nat) (a : Article) : Int :=
  match scoreArticleRelevance llm idx question (some a) with
  | .error _ => 5
  | .ok (s, _) => s

/-- Default `ScoredPaper` used with `List.getD`. -/
def defaultScored : ScoredPaper := { article := {}, relevanceScore := 0 }

theorem scoreRelevanceLoop_length (llm : Option Oracle) (q : String) :
    ∀ (arts : List Article) (idx : Nat) (tok : Int),
      ((scoreRelevanceLoop llm q arts idx tok).1).length = arts.length := by
  intro arts
  induction arts with
  | nil => intro idx tok; rfl
  | cons a rest ih =>
    intro idx tok
    simp only [scoreRelevanceLoop, List.length_cons]
    rw [ih]

theorem scoreRelevanceLoop_endIdx (llm : Option Oracle) (q : String) :
    ∀ (arts : List Article) (idx : Nat) (tok : Int),
      (scoreRelevanceLoop llm q arts idx tok).2.2 = idx + arts.length := by
  intro arts
  induction arts with
  | nil => intro idx tok; simp [scoreRelevanceLoop]
  | cons a rest ih =>
    intro idx tok
    simp only [scoreRelevanceLoop, List.length_cons]
    rw [ih]
    omega

theorem scoreRelevanceLoop_getD (llm : Option Oracle) (q : String) :
    ∀ (arts : List Article) (idx : Nat) (tok : Int) (i : Nat), i < arts.length →
      ((scoreRelevanceLoop llm q arts idx tok).1).getD i defaultScored =
        { article := arts.getD i {}
          relevanceScore := scoreOf llm q (idx + i) (arts.getD i {}) } := by
  intro arts
  induction arts with
  | nil => intro idx tok i h; exact absurd h (by simp)
  | cons a rest ih =>
    intro idx tok i h
    match i with
    | 0 =>
      simp only [scoreRelevanceLoop, List.getD_cons_zero, Nat.add_zero]
      cases hsc : scoreArticleRelevance llm idx q (some a) with
      | error e => simp [scoreOf, hsc]
      | ok p => cases p with | mk s t => simp [scoreOf, hsc]
    | j + 1 =>
      have hj : j < rest.length := by simpa using h
      simp only [scoreRelevanceLoop, List.getD_cons_succ]
      rw [ih (idx + 1) _ j hj]
      have harith : idx + 1 + j = idx + (j + 1) := by omega
      rw [harith]

/-! ## Claim C3 — per-document scoring failures degrade, never abort -/

/-- **C3.** During the scoring stage, for every fetched document list:
`scoreRelevance` always returns a nil error; every document is scored
(one collaborator call per document, the loop continuing through the
whole list); a document whose collaborator call fails is recorded with
the neutral fallback score 5; and a document whose response contains no
standalone 1–10 token is likewise recorded with score 5. -/
theorem C3_scoring_soft_failure (llm : Option Oracle) (q : String)
    (articles : List Article) (startIdx : Nat) :
    scoreRelevance llm q articles startIdx =
      .ok (scoreRelevanceLoop llm q articles startIdx 0) ∧
    ∀ tok : Int,
      ((scoreRelevanceLoop llm q articles startIdx tok).1).length = articles.length ∧
      (scoreRelevanceLoop llm q articles startIdx tok).2.2 = startIdx + articles.length ∧
      ∀ i, i < articles.length →
        (((scoreRelevanceLoop llm q articles startIdx tok).1).getD i defaultScored).article =
          articles.getD i {} ∧
        (∀ e, scoreArticleRelevance llm (startIdx + i) q (some (articles.getD i {})) = .error e →
          (((scoreRelevanceLoop llm q articles startIdx tok).1).getD i
            defaultScored).relevanceScore = 5) ∧
        (∀ o resp, llm = some o →
          o (startIdx + i) (scorePrompt q (articles.getD i {})) 10 = .ok resp →
          scanScore none (goTrimSpace resp).data = none →
          (((scoreRelevanceLoop llm q articles startIdx tok).1).getD i
            defaultScored).relevanceScore = 5) := by
  refine ⟨rfl, fun tok => ⟨scoreRelevanceLoop_length llm q articles startIdx tok,
    scoreRelevanceLoop_endIdx llm q articles startIdx tok, fun i hi => ?_⟩⟩
  rw [scoreRelevanceLoop_getD llm q articles startIdx tok i hi]
  refine ⟨rfl, fun e he => ?_, fun o resp ho hresp hscan => ?_⟩
  · show scoreOf llm q (startIdx + i) (articles.getD i {}) = 5
    simp only [scoreOf, he]
  · show scoreOf llm q (startIdx + i) (articles.getD i {}) = 5
    subst ho
    simp only [scoreOf, scoreArticleRelevance, hresp]
    simp only [parseScore, hscan]

/-- The failing collaborator of the C3 witness: the first call fails
outright, the second returns a response with no standalone 1–10 token. -/
def softFailOracle : Oracle :=
  fun idx _ _ => if idx = 0 then .error "upstream broke" else .ok "no verdict at all"

/-- First article of the C3 witness run. -/
def softFailArticleA : Article := { pmid := "10", title := "P" }

/-- Second article of the C3 witness run. -/
def softFailArticleB : Article := { pmid := "11", title := "Q" }

/-- Witness for C3: with one failing call and one unparseable response,
both documents are recorded with score 5, the loop runs to the end
(call index 2), and the stage still returns a nil error. -/
theorem C3_scoring_soft_failure_witness :
    scoreRelevance (some softFailOracle) "q" [softFailArticleA, softFailArticleB] 0 =
      .ok (scoreRelevanceLoop (some softFailOracle) "q"
        [softFailArticleA, softFailArticleB] 0 0) ∧
    (((scoreRelevanceLoop (some softFailOracle) "q"
        [softFailArticleA, softFailArticleB] 0 0).1).getD 0
          defaultScored).relevanceScore = 5 ∧
    (((scoreRelevanceLoop (some softFailOracle) "q"
        [softFailArticleA, softFailArticleB] 0 0).1).getD 1
          defaultScored).relevanceScore = 5 ∧
    (scoreRelevanceLoop (some softFailOracle) "q"
        [softFailArticleA, softFailArticleB] 0 0).2.2 = 2 := by
  obtain ⟨h1, h2⟩ := C3_scoring_soft_failure (some softFailOracle) "q"
    [softFailArticleA, softFailArticleB] 0
  obtain ⟨hlen, hend, hget⟩ := h2 0
  refine ⟨h1, ?_, ?_, hend⟩
  · exact (hget 0 (by decide)).2.1 "upstream broke" (by rfl)
  · exact (hget 1 (by decide)).2.2 softFailOracle "no verdict at all" rfl
      (by rfl) (by decide)

/-! ## Claim C4 — explicit, distinct policy failures -/

/-- **C4.** `Synthesize` fails with the explicit "no papers found" error
when the search returns zero identifiers, fails with the explicit
"no papers met relevance threshold" error when no scored document
reaches the threshold, and those two error messages can never coincide
(so neither case is an empty success, and the two failures are
distinct). -/
theorem C4_policy_failures :
    (∀ (sortFn : List ScoredPaper → List ScoredPaper) (eng : Engine)
       (q : String) (sr : SearchResult),
      eng.search q eng.cfg.papersToSearch = .ok sr → sr.ids = [] →
      Synthesize sortFn eng q = .error ("no papers found for query: " ++ q)) ∧
    (∀ (sortFn : List ScoredPaper → List ScoredPaper) (eng : Engine)
       (q : String) (sr : SearchResult) (articles : List Article),
      eng.search q eng.cfg.papersToSearch = .ok sr → sr.ids ≠ [] →
      eng.fetch sr.ids = .ok articles →
      0 ≤ eng.cfg.papersToUse →
      ((scoreRelevanceLoop eng.llm q articles 0 0).1).all
        (fun sp => sp.relevanceScore < eng.cfg.relevanceThreshold) →
      sortFn [] = [] →
      Synthesize sortFn eng q =
        .error ("no papers met relevance threshold (" ++
          toString eng.cfg.relevanceThreshold ++ ") for: " ++ q)) ∧
    (∀ (q q' : String) (t : Int),
      ("no papers found for query: " ++ q) ≠
        ("no papers met relevance threshold (" ++ toString t ++ ") for: " ++ q')) := by
  refine ⟨?_, ?_, ?_⟩
  · intro sortFn eng q sr hs hids
    simp only [Synthesize, hs]
    rw [hids]
    simp
  · intro sortFn eng q sr articles hs hids hf hp hall hsort
    have hlen : ¬ sr.ids.length = 0 := fun h => hids (List.length_eq_zero.mp h)
    have hfilter : ((scoreRelevanceLoop eng.llm q articles 0 0).1).filter
        (fun sp => decide (sp.relevanceScore ≥ eng.cfg.relevanceThreshold)) = [] := by
      rw [List.filter_eq_nil_iff]
      intro sp hsp
      have hlt := (List.all_eq_true.mp hall) sp hsp
      simp only [decide_eq_true_eq] at hlt ⊢
      omega
    have hno : ¬ ((([] : List ScoredPaper).length : Int) > eng.cfg.papersToUse) := by
      simp only [List.length_nil, Int.natCast_zero, gt_iff_lt, not_lt]
      exact hp
    simp only [Synthesize, hs, hf, scoreRelevance]
    rw [if_neg hlen]
    rw [hfilter, hsort]
    rw [if_neg hno]
    simp
  · intro q q' t h
    have h1 : ("no papers found for query: " ++ q).data[10]? = some 'f' := by
      rw [String.data_append]
      rw [List.getElem?_append_left (by decide)]
      decide
    have h2 : ("no papers met relevance threshold (" ++ toString t ++ ") for: " ++ q').data[10]? =
        some 'm' := by
      rw [String.data_append, String.data_append, String.data_append]
      rw [List.append_assoc, List.append_assoc]
      rw [List.getElem?_append_left (by decide)]
      decide
    rw [h] at h1
    rw [h2] at h1
    exact absurd h1 (by decide)

/-- Engine of the C4 witness whose search finds nothing. -/
def emptySearchEngine : Engine :=
  { llm := none
    search := fun _ _ => .ok { count := 0, ids := [] }
    fetch := fun _ => .error "unused"
    cfg := DefaultConfig }

/-- Engine of the C4 witness whose single fetched paper scores 2,
below the default threshold 7. -/
def belowThresholdEngine : Engine :=
  { llm := some (fun _ _ _ => .ok "2")
    search := fun _ _ => .ok { count := 1, ids := ["77"] }
    fetch := fun _ => .ok [{ pmid := "77", title := "T" }]
    cfg := DefaultConfig }

/-- Witness for C4: a search with zero identifiers yields the "no
papers found" failure, an all-below-threshold run yields the distinct
"no papers met relevance threshold (7)" failure, and the two concrete
messages differ. -/
theorem C4_policy_failures_witness :
    Synthesize id emptySearchEngine "q" = .error "no papers found for query: q" ∧
    Synthesize id belowThresholdEngine "q" =
      .error "no papers met relevance threshold (7) for: q" ∧
    ("no papers found for query: " ++ "q") ≠
      ("no papers met relevance threshold (" ++ toString (7 : Int) ++ ") for: " ++ "q") := by
  refine ⟨?_, ?_, C4_policy_failures.2.2 "q" "q" 7⟩
  · exact C4_policy_failures.1 id emptySearchEngine "q" { count := 0, ids := [] } rfl rfl
  · have h := C4_policy_failures.2.1 id belowThresholdEngine "q"
      { count := 1, ids := ["77"] } [{ pmid := "77", title := "T" }]
      rfl (by decide) rfl (by decide) (by decide) rfl
    exact h

/-! ## Claim C9 — RIS records are line-safe -/

/-- A character that cannot break a tagged RIS line: not a newline,
carriage return or tab. -/
def risSafeChar (c : Char) : Bool :=
  !(c = '\n') && !(c = '\r') && !(c = '\t')

theorem replaceCRLF_subset :
    ∀ (l : List Char) (c : Char), c ∈ replaceCRLF l → c = ' ' ∨ c ∈ l
  | [], c, h => by rw [replaceCRLF] at h; cases h
  | [x], c, h => by
    rw [replaceCRLF] at h
    exact Or.inr h
  | c1 :: c2 :: rest, c, h => by
    rw [replaceCRLF] at h
    split at h
    · rcases List.mem_cons.mp h with rfl | h'
      · exact Or.inl rfl
      · rcases replaceCRLF_subset rest c h' with h'' | h''
        · exact Or.inl h''
        · exact Or.inr (List.mem_cons_of_mem _ (List.mem_cons_of_mem _ h''))
    · rcases List.mem_cons.mp h with rfl | h'
      · exact Or.inr (List.mem_cons_self _ _)
      · rcases replaceCRLF_subset (c2 :: rest) c h' with h'' | h''
        · exact Or.inl h''
        · exact Or.inr (List.mem_cons_of_mem _ h'')

theorem sanitizeRIS_safe (s : String) : (sanitizeRIS s).data.all risSafeChar = true := by
  rw [List.all_eq_true]
  intro c hc
  unfold sanitizeRIS at hc
  simp only [goTrimSpace, String.mk] at hc
  have h1 : c ∈ (((replaceCRLF s.data).map (fun c => if c = '\n' then ' ' else c)).map
      (fun c => if c = '\r' then ' ' else c)).map (fun c => if c = '\t' then ' ' else c) := by
    have hc' := List.mem_reverse.mp hc
    have hc2 := (List.dropWhile_sublist _).mem hc'
    have hc3 := List.mem_reverse.mp hc2
    exact (List.dropWhile_sublist _).mem hc3
  rcases List.mem_map.mp h1 with ⟨b, hb, hbc⟩
  rcases List.mem_map.mp hb with ⟨a, ha, hab⟩
  rcases List.mem_map.mp ha with ⟨z, _, hza⟩
  subst hbc hab hza
  by_cases h1' : z = '\n' <;> by_cases h2' : z = '\r' <;> by_cases h3' : z = '\t' <;>
    simp [h1', h2', h3', risSafeChar]

/-- Appending line-safe pieces keeps a line safe. -/
theorem risSafe_append {a b : String}
    (ha : a.data.all risSafeChar = true) (hb : b.data.all risSafeChar = true) :
    (a ++ b).data.all risSafeChar = true := by
  rw [String.data_append, List.all_append, ha, hb]
  rfl

/-- `List.all` of a singleton. -/
theorem all_singleton_eq {α : Type} {p : α → Bool} {x : α} : [x].all p = p x := by
  simp

/-- **C9.** For every Reference, the generated RIS record is the
newline-join of its tagged lines, the first of which is `"TY  - JOUR"`
and the last `"ER  -"`, and no single tagged line contains a raw
newline, carriage return or tab — every field value is sanitized before
emission. -/
theorem C9_ris_record (ref : Reference) :
    (risLines ref).head? = some "TY  - JOUR" ∧
    (risLines ref).getLast? = some "ER  -" ∧
    generateRISEntry ref = goJoin (risLines ref) "\n" ∧
    (risLines ref).all (fun l => l.data.all risSafeChar) = true := by
  refine ⟨rfl, ?_, rfl, ?_⟩
  · unfold risLines
    rw [List.getLast?_concat]
  · unfold risLines
    simp only [List.all_append, Bool.and_eq_true, and_assoc]
    refine ⟨by decide, ?_, ?_, ?_, ?_, ?_, ?_, ?_, by decide, ?_, by decide⟩
    · rw [List.all_eq_true]
      intro x hx
      rcases List.mem_map.mp hx with ⟨author, _, rfl⟩
      exact risSafe_append (by decide) (sanitizeRIS_safe author)
    · rw [all_singleton_eq]
      exact risSafe_append (by decide) (sanitizeRIS_safe ref.title)
    · split
      · rw [all_singleton_eq]
        exact risSafe_append (by decide) (sanitizeRIS_safe ref.journal)
      · decide
    · split
      · rw [all_singleton_eq]
        exact risSafe_append (by decide) (sanitizeRIS_safe ref.year)
      · decide
    · split
      · rw [all_singleton_eq]
        exact risSafe_append (by decide) (sanitizeRIS_safe ref.doi)
      · decide
    · split
      · rw [all_singleton_eq]
        exact risSafe_append (by decide) (sanitizeRIS_safe ref.pmid)
      · decide
    · split
      · rw [all_singleton_eq]
        exact risSafe_append (by decide) (sanitizeRIS_safe _)
      · decide
    · split
      · rw [all_singleton_eq]
        exact risSafe_append (risSafe_append (by decide) (sanitizeRIS_safe ref.pmid))
          (by decide)
      · decide

/-! ## Claim C10 — single-document deep dive -/

/-- **C10.** For every identifier whose fetch succeeds with at least one
article: any successful `SynthesizePMID` result reports papers
searched = scored = used = 1 and carries exactly one Reference, built
with relevance score 10; and the only prompt ever sent to the LLM
collaborator is the deep-dive prompt — never a relevance-scoring
prompt. -/
theorem C10_deep_dive (eng : Engine) (pmid : String) (a : Article)
    (rest : List Article) (hfetch : eng.fetch [pmid] = .ok (a :: rest)) :
    (∀ r, SynthesizePMID eng pmid = .ok r →
      r.papersSearched = 1 ∧ r.papersScored = 1 ∧ r.papersUsed = 1 ∧
      r.references = [buildReference a 1 10] ∧
      (buildReference a 1 10).relevanceScore = 10) ∧
    (SynthesizePMIDT eng pmid).2 = [deepDivePrompt eng.cfg a] ∧
    (∀ p ∈ (SynthesizePMIDT eng pmid).2, ∀ q art, p ≠ scorePrompt q art) := by
  have hT : SynthesizePMIDT eng pmid =
      (match callComplete eng.llm 0 (deepDivePrompt eng.cfg a) (eng.cfg.targetWords * 2) with
       | .error e => (.error ("synthesis: " ++ e), [deepDivePrompt eng.cfg a])
       | .ok syn =>
         (.ok { question := "Deep dive: PMID " ++ pmid
                papersSearched := 1
                papersScored := 1
                papersUsed := 1
                references := [buildReference a 1 10]
                synthesis := goTrimSpace syn
                tokens := { input := ((deepDivePrompt eng.cfg a).length : Int) / 4
                            output := ((syn : String).length : Int) / 4
                            total := ((deepDivePrompt eng.cfg a).length : Int) / 4 +
                              ((syn : String).length : Int) / 4 }
                ris := GenerateRIS [buildReference a 1 10] },
          [deepDivePrompt eng.cfg a]) : Except String Result × List String) := by
    unfold SynthesizePMIDT
    rw [hfetch]
  have hprompts : (SynthesizePMIDT eng pmid).2 = [deepDivePrompt eng.cfg a] := by
    rw [hT]
    cases callComplete eng.llm 0 (deepDivePrompt eng.cfg a) (eng.cfg.targetWords * 2) <;> rfl
  refine ⟨?_, hprompts, ?_⟩
  · intro r hr
    unfold SynthesizePMID at hr
    rw [hT] at hr
    cases hcc : callComplete eng.llm 0 (deepDivePrompt eng.cfg a) (eng.cfg.targetWords * 2) with
    | error e => rw [hcc] at hr; cases hr
    | ok syn =>
      rw [hcc] at hr
      injection hr with hr
      subst hr
      exact ⟨rfl, rfl, rfl, rfl, rfl⟩
  · intro p hp q art heq
    rw [hprompts] at hp
    have hp' : p = deepDivePrompt eng.cfg a := by simpa using hp
    subst hp'
    have hS : (deepDivePrompt eng.cfg a).data.head? = some 'S' := by
      unfold deepDivePrompt
      rw [String.data_append, String.data_append, String.data_append,
        String.data_append, String.data_append, String.data_append]
      rfl
    have hR : (scorePrompt q art).data.head? = some 'R' := by
      unfold scorePrompt
      rw [String.data_append, String.data_append, String.data_append,
        String.data_append, String.data_append, String.data_append,
        String.data_append, String.data_append]
      rfl
    rw [heq, hR] at hS
    cases hS

/-- Engine of the C10 witness. -/
def deepDiveEngine : Engine :=
  { llm := some (fun _ _ _ => .ok "A summary.")
    search := fun _ _ => .error "unused"
    fetch := fun _ => .ok [{ pmid := "42", title := "T", abstract := "A",
                             year := "2020", journal := "J" }]
    cfg := DefaultConfig }

/-- Witness for C10: a concrete single-document run reports counts
1/1/1, one reference with relevance score 10, and sends exactly one
prompt. -/
theorem C10_deep_dive_witness :
    (SynthesizePMID deepDiveEngine "42").toOption.map
      (fun r => (r.papersSearched, r.papersScored, r.papersUsed,
        r.references.map (fun ref => ref.relevanceScore))) = some (1, 1, 1, [10]) ∧
    ((SynthesizePMIDT deepDiveEngine "42").2).length = 1 := by
  have h := C10_deep_dive deepDiveEngine "42"
    { pmid := "42", title := "T", abstract := "A", year := "2020", journal := "J" } [] rfl
  constructor
  · cases hok : SynthesizePMID deepDiveEngine "42" with
    | error e =>
      have hisok : (SynthesizePMID deepDiveEngine "42").isOk = true := by rfl
      rw [hok] at hisok
      cases hisok
    | ok r =>
      obtain ⟨h1, h2, h3, h4, h5⟩ := h.1 r hok
      simp [Except.toOption, h1, h2, h3, h4, h5]
  · rw [h.2.1]
    rfl

/-! ## Claim C2 — QA strategy priority (spec-modelled) -/

/-- **C2.** For every question, the QA strategy decision follows the
priority order: forcing parametric yields Parametric regardless of
novelty or confidence; otherwise forcing retrieval yields Retrieval;
otherwise detected novelty yields Retrieval regardless of confidence;
otherwise the strategy is Parametric with the tentative answer used
directly exactly when the parsed confidence reaches the configured
threshold (default 7), and Retrieval below it. -/
theorem C2_qa_strategy_priority (cfg : QAConfig) (novel : Bool) (resp : String) :
    (cfg.forceParametric = true →
      (answerDecision cfg novel resp).1 = Strategy.parametric) ∧
    (cfg.forceParametric = false → cfg.forceRetrieval = true →
      (answerDecision cfg novel resp).1 = Strategy.retrieval) ∧
    (cfg.forceParametric = false → cfg.forceRetrieval = false → novel = true →
      (answerDecision cfg novel resp).1 = Strategy.retrieval) ∧
    (cfg.forceParametric = false → cfg.forceRetrieval = false → novel = false →
      (parseConfidence resp ≥ cfg.confidenceThreshold →
        answerDecision cfg novel resp =
          (Strategy.parametric, parseConfidence resp, some (parseAnswerLine resp))) ∧
      (parseConfidence resp < cfg.confidenceThreshold →
        (answerDecision cfg novel resp).1 = Strategy.retrieval)) ∧
    qaDefaultConfig.confidenceThreshold = 7 := by
  refine ⟨?_, ?_, ?_, ?_, rfl⟩
  · intro hp
    simp [answerDecision, hp]
  · intro hp hr
    simp [answerDecision, hp, hr]
  · intro hp hr hn
    simp [answerDecision, hp, hr, hn]
  · intro hp hr hn
    refine ⟨fun hc => ?_, fun hc => ?_⟩
    · simp [answerDecision, hp, hr, hn, hc]
    · simp [answerDecision, hp, hr, hn, not_le.mpr hc]

/-- Witness for C2: with the default config, no novelty and the
structured response `"CONFIDENCE: 9\nANSWER: yes"` from the spec's
example, the decision is Parametric with confidence 9 and tentative
answer `"yes"` used directly. -/
theorem C2_qa_strategy_priority_witness :
    answerDecision qaDefaultConfig false "CONFIDENCE: 9\nANSWER: yes" =
      (Strategy.parametric, 9, some "yes") := by
  have h := (C2_qa_strategy_priority qaDefaultConfig false
    "CONFIDENCE: 9\nANSWER: yes").2.2.2.1 rfl rfl rfl
  have h9 : parseConfidence "CONFIDENCE: 9\nANSWER: yes" = 9 := by decide
  have := h.1 (by rw [h9]; decide)
  rw [this, h9]
  have ha : parseAnswerLine "CONFIDENCE: 9\nANSWER: yes" = "yes" := by decide
  rw [ha]

/-! ## Claim C5 — search breadth raising (corrected) -/

/-- An engine whose search collaborator reports the limit it received
as its error message, configured to use more papers than it searches. -/
def breadthProbeEngine : Engine :=
  { llm := none
    search := fun _ limit => .error (toString limit)
    fetch := fun _ => .error "unused"
    cfg := { papersToUse := 10, papersToSearch := 3, relevanceThreshold := 7,
             targetWords := 250, citationStyle := "apa" } }

/-- **C5, counterexample.** `Synthesize` does not raise the search
breadth: with `PapersToUse = 10` and `PapersToSearch = 3` it passes the
limit 3 — below the requested inclusion count — to the Search
collaborator (observed through the collaborator's error message). -/
theorem C5_counterexample :
    Synthesize id breadthProbeEngine "q" = .error "search: 3" ∧
    breadthProbeEngine.cfg.papersToSearch < breadthProbeEngine.cfg.papersToUse := by
  exact ⟨rfl, by decide⟩

/-- **C5, amended.** The breadth raise happens in the `synth` CLI
command before the `Config` is built: for every validated flag set the
command raises the search flag to `max(papers, search)`, which is never
below the papers flag; `Synthesize` itself passes `cfg.PapersToSearch`
to Search unchanged. -/
theorem C5_amended :
    (∀ papers search words relevance p s,
      validateSynthFlags papers search words relevance = .ok (p, s) →
      p = papers ∧ s = max papers search ∧ p ≤ s) ∧
    (∀ (sortFn : List ScoredPaper → List ScoredPaper)
       (llm : Option Oracle) (fetch : List String → Except String (List Article))
       (cfg : Config) (q : String) (f : String → Int → String),
      Synthesize sortFn
        { llm := llm, search := fun q l => .error (f q l), fetch := fetch, cfg := cfg } q =
        .error ("search: " ++ f q cfg.papersToSearch)) := by
  constructor
  · intro papers search words relevance p s h
    unfold validateSynthFlags at h
    split at h
    · exact absurd h (by simp)
    split at h
    · exact absurd h (by simp)
    split at h
    · exact absurd h (by simp)
    split at h
    · exact absurd h (by simp)
    split at h
    · rename_i h1 h2 h3 h4 h5
      injection h with h'
      injection h' with hp hs
      subst hp; subst hs
      refine ⟨rfl, ?_, le_refl _⟩
      omega
    · rename_i h1 h2 h3 h4 h5
      injection h with h'
      injection h' with hp hs
      subst hp; subst hs
      refine ⟨rfl, ?_, ?_⟩ <;> omega
  · intro sortFn llm fetch cfg q f
    rfl

/-- Witness for C5 (amended): flags `--papers 10 --search 3` are raised
to search breadth 10, and a concrete `Synthesize` run passes its
configured `PapersToSearch` (here 3) to the Search collaborator. -/
theorem C5_amended_witness :
    (validateSynthFlags 10 3 250 7 = .ok (10, 10) →
      (10 : Int) = 10 ∧ (10 : Int) = max 10 3 ∧ (10 : Int) ≤ 10) ∧
    Synthesize id
      { llm := none, search := fun _ l => .error (toString l),
        fetch := fun _ => .error "unused",
        cfg := { papersToUse := 5, papersToSearch := 3, relevanceThreshold := 7,
                 targetWords := 250, citationStyle := "apa" } } "q" =
      .error "search: 3" := by
  constructor
  · exact C5_amended.1 10 3 250 7 10 10
  · exact C5_amended.2 id none (fun _ => .error "unused")
      { papersToUse := 5, papersToSearch := 3, relevanceThreshold := 7,
        targetWords := 250, citationStyle := "apa" } "q" (fun _ l => toString l)

/-! ## Claim C6 — cancellation during the scoring loop (code bug) -/

/-- An LLM oracle modelling a context cancelled after the first
`Complete` call: call 0 answers `"8"`, every later call fails with
the cancellation error. -/
def cancelledAfterOne : Oracle :=
  fun idx _ _ => if idx = 0 then .ok "8" else .error "context canceled"

/-- Three minimal fetched articles for the cancellation run. -/
def cancelArticleA : Article := { pmid := "1", title := "A" }

/-- Second article of the cancellation run. -/
def cancelArticleB : Article := { pmid := "2", title := "B" }

/-- Third article of the cancellation run. -/
def cancelArticleC : Article := { pmid := "3", title := "C" }

/-- **C6.** When the context is cancelled after the first of three
per-document scoring calls, `scoreRelevance` does not stop and does not
fail: it swallows the cancellation, assigns the neutral score 5 to each
remaining document, keeps calling the collaborator for every remaining
document (the call index advances to 3), and returns a nil error. -/
theorem C6_cancellation_swallowed :
    scoreRelevance (some cancelledAfterOne) "q"
        [cancelArticleA, cancelArticleB, cancelArticleC] 0 =
      .ok (scoreRelevanceLoop (some cancelledAfterOne) "q"
        [cancelArticleA, cancelArticleB, cancelArticleC] 0 0) ∧
    ((scoreRelevanceLoop (some cancelledAfterOne) "q"
        [cancelArticleA, cancelArticleB, cancelArticleC] 0 0).1).map
      (fun sp => sp.relevanceScore) = [8, 5, 5] ∧
    (scoreRelevanceLoop (some cancelledAfterOne) "q"
        [cancelArticleA, cancelArticleB, cancelArticleC] 0 0).2.2 = 3 := by
  refine ⟨rfl, ?_, ?_⟩ <;> decide

/-! ## Claim C8 — APA author formatting (corrected) -/

/-- The loop of the 2–7 author branch emits one plain part per
non-final author and an `"& "`-prefixed part for the final author. -/
theorem apaParts_spec :
    ∀ (l : List Author) (total i : Nat), i + l.length = total → l ≠ [] →
      apaParts total i l =
        l.dropLast.map apaAuthor ++ ["& " ++ apaAuthor (l.getLast?.getD {})] := by
  intro l
  induction l with
  | nil => intro total i _ hne; exact absurd rfl hne
  | cons a rest ih =>
    intro total i htot _
    match rest, ih with
    | [], _ =>
      simp only [apaParts, List.length_cons, List.length_nil] at htot ⊢
      have hi : i = total - 1 := by omega
      rw [if_pos hi]
      rfl
    | b :: t, ih =>
      have hne2 : i ≠ total - 1 := by
        simp only [List.length_cons] at htot
        omega
      have hrec := ih total (i + 1) (by simp only [List.length_cons] at htot ⊢; omega)
        (by simp)
      have hstep : apaParts total i (a :: b :: t) =
          (if i = total - 1 then "& " ++ apaAuthor a else apaAuthor a) ::
            apaParts total (i + 1) (b :: t) := rfl
      rw [hstep, if_neg hne2, hrec, List.dropLast_cons₂, List.map_cons,
        List.cons_append, List.getLast?_cons_cons]

/-- Article used to refute the claimed two-author format. -/
def twoAuthorArticle : Article :=
  { pmid := "1", title := "T", abstract := "",
    authors := [{ lastName := "Smith", foreName := "John" },
                { lastName := "Jones", foreName := "Anna" }],
    year := "2020", journal := "J", doi := "" }

/-- **C8, counterexample.** A two-author document is formatted
`"Smith, J., & Jones, A. …"` — with a comma before the ampersand — not
`"Smith, J. & Jones, A. …"` as the claim states. -/
theorem C8_counterexample :
    formatAPA twoAuthorArticle = "Smith, J., & Jones, A. (2020). T. J." ∧
    formatAPA twoAuthorArticle ≠ "Smith, J. & Jones, A. (2020). T. J." := by
  constructor
  · rfl
  · decide

/-- **C8, amended.** The APA author list renders: zero authors as
`"Unknown"`; one author as `"Last, F."`; two authors as
`"Last, F., & Last2, F2."` (comma before the ampersand); three to seven
authors comma-separated with `"& "` before the last; more than seven as
the first six, an ellipsis part, then `"& "` plus the last author — and
the full citation is the author part followed by `"(Year). Title.
Journal."` and an optional DOI URL. -/
theorem C8_apa_author_formatting (art : Article) :
    (art.authors = [] → apaAuthors art.authors = "Unknown") ∧
    (∀ a, art.authors = [a] → apaAuthors art.authors = apaAuthor a) ∧
    (∀ a b, art.authors = [a, b] →
      apaAuthors art.authors = apaAuthor a ++ ", & " ++ apaAuthor b) ∧
    (2 ≤ art.authors.length → art.authors.length ≤ 7 →
      apaAuthors art.authors =
        goJoin ((art.authors.dropLast.map apaAuthor) ++
          ["& " ++ apaAuthor ((art.authors.getLast?).getD {})]) ", ") ∧
    (7 < art.authors.length →
      apaAuthors art.authors =
        goJoin (((art.authors.take 6).map apaAuthor) ++ ["..."] ++
          ["& " ++ apaAuthor ((art.authors.getLast?).getD {})]) ", ") ∧
    formatAPA art = apaAuthors art.authors ++ " (" ++ art.year ++ "). " ++
      art.title ++ ". " ++ art.journal ++ "." ++
      (if art.doi ≠ "" then " https://doi.org/" ++ art.doi else "") := by
  refine ⟨?_, ?_, ?_, ?_, ?_, ?_⟩
  · intro h; rw [h]; rfl
  · intro a h; rw [h]; rfl
  · intro a b h
    rw [h]
    show (apaAuthor a ++ ", ") ++ ("& " ++ apaAuthor b) =
      (apaAuthor a ++ ", & ") ++ apaAuthor b
    rw [← String.append_assoc, String.append_assoc (apaAuthor a) ", " "& "]
    rfl
  · intro h2 h7
    match hau : art.authors, h2 with
    | a :: b :: t, _ =>
      show (if (a :: b :: t).length ≤ 7 then
          goJoin (apaParts (a :: b :: t).length 0 (a :: b :: t)) ", "
        else _) = _
      rw [hau] at h7
      rw [if_pos h7]
      rw [apaParts_spec (a :: b :: t) (a :: b :: t).length 0 (by omega) (by simp)]
  · intro h7
    match hau : art.authors, h7 with
    | a :: b :: t, _ =>
      show (if (a :: b :: t).length ≤ 7 then _
        else goJoin ((((a :: b :: t).take 6).map apaAuthor) ++ ["..."] ++
          ["& " ++ apaAuthor (((a :: b :: t).getLast?).getD {})]) ", ") = _
      rw [hau] at h7
      rw [if_neg (by omega)]
  · unfold formatAPA
    by_cases hd : art.doi = ""
    · rw [if_neg (by simp [hd]), if_neg (by simp [hd]), String.append_empty]
    · rw [if_pos hd, if_pos hd, ← String.append_assoc]

/-- Witness for C8 (amended): the concrete two-author case renders with
the comma before the ampersand. -/
theorem C8_apa_author_formatting_witness :
    apaAuthors [{ lastName := "Smith", foreName := "John" },
                { lastName := "Jones", foreName := "Anna" }] =
      "Smith, J., & Jones, A." := by
  have h := (C8_apa_author_formatting twoAuthorArticle).2.2.1
    { lastName := "Smith", foreName := "John" }
    { lastName := "Jones", foreName := "Anna" } rfl
  rw [show twoAuthorArticle.authors =
    [{ lastName := "Smith", foreName := "John" },
     { lastName := "Jones", foreName := "Anna" }] from rfl] at h
  rw [h]
  decide

/-! ## Claim C7 — BibTeX citation-key disambiguation (corrected) -/

/-- The effective base key the key-generation loop uses for the
reference at loop index `i` (including the `"Ref<i+1>"` fallback for an
empty base). -/
def effBaseAt (ref : Reference) (i : Nat) : String :=
  let base0 := bibtexCitationKeyBase ref
  if base0 = "" then "Ref" ++ toString (i + 1) else base0

/-- The key emitted for a base seen `n` times before: the bare base
first, then base plus letter suffix. -/
def keyFor (b : String) (n : Nat) : String :=
  if n = 0 then b else b ++ alphaSuffix (n : Int)

/-- How many of the first `k` loop positions carry effective base `B`. -/
def effCount (refs : List Reference) (start k : Nat) (B : String) : Nat :=
  ((List.range k).filter
    (fun j => effBaseAt (refs.getD j {}) (start + j) = B)).length

theorem alphaSuffixCoreFuel_congr :
    ∀ (f1 f2 m : Nat), m ≤ f1 → m ≤ f2 →
      alphaSuffixCoreFuel f1 m = alphaSuffixCoreFuel f2 m := by
  intro f1
  induction f1 with
  | zero =>
    intro f2 m h1 _
    have hm : m = 0 := by omega
    subst hm
    cases f2 with
    | zero => rfl
    | succ g => simp [alphaSuffixCoreFuel]
  | succ f ih =>
    intro f2 m h1 h2
    cases f2 with
    | zero =>
      have hm : m = 0 := by omega
      subst hm
      simp [alphaSuffixCoreFuel]
    | succ g =>
      by_cases hm : m < 26
      · simp [alphaSuffixCoreFuel, hm]
      · simp only [alphaSuffixCoreFuel, if_neg hm]
        have hrec : m / 26 - 1 ≤ f ∧ m / 26 - 1 ≤ g := by omega
        rw [ih g (m / 26 - 1) hrec.1 hrec.2]

/-- The defining recurrence of the `alphaSuffix` loop. -/
theorem alphaSuffixCore_eq (m : Nat) :
    alphaSuffixCore m =
      if m < 26 then [Char.ofNat ('a'.toNat + m)]
      else alphaSuffixCore (m / 26 - 1) ++ [Char.ofNat ('a'.toNat + m % 26)] := by
  by_cases hm : m < 26
  · rw [if_pos hm]
    unfold alphaSuffixCore
    cases m with
    | zero => simp [alphaSuffixCoreFuel]
    | succ k => simp [alphaSuffixCoreFuel, hm]
  · rw [if_neg hm]
    unfold alphaSuffixCore
    rcases m with _ | k
    · exact absurd (by norm_num) hm
    · simp only [alphaSuffixCoreFuel, if_neg hm]
      rw [alphaSuffixCoreFuel_congr k ((k + 1) / 26 - 1) ((k + 1) / 26 - 1)
        (by omega) (le_refl _)]

theorem alphaSuffixCore_ne_nil (m : Nat) : alphaSuffixCore m ≠ [] := by
  rw [alphaSuffixCore_eq]
  split
  · simp
  · simp

/-- Injectivity of the letter map over the 26-character alphabet. -/
theorem alphaChar_inj :
    ∀ x y : Fin 26, Char.ofNat ('a'.toNat + x.val) = Char.ofNat ('a'.toNat + y.val) →
      x = y := by decide

theorem alphaSuffixCore_inj (m1 : Nat) :
    ∀ m2, alphaSuffixCore m1 = alphaSuffixCore m2 → m1 = m2 := by
  induction m1 using Nat.strong_induction_on with
  | _ m1 ih =>
    intro m2 heq
    rw [alphaSuffixCore_eq m1, alphaSuffixCore_eq m2] at heq
    by_cases h1 : m1 < 26 <;> by_cases h2 : m2 < 26
    · rw [if_pos h1, if_pos h2] at heq
      injection heq with hc _
      have hxy := alphaChar_inj ⟨m1, h1⟩ ⟨m2, h2⟩ hc
      exact congrArg Fin.val hxy
    · rw [if_pos h1, if_neg h2] at heq
      have hlen := congrArg List.length heq
      simp only [List.length_singleton, List.length_append] at hlen
      have hne := alphaSuffixCore_ne_nil (m2 / 26 - 1)
      have hpos := List.length_pos.mpr hne
      omega
    · rw [if_neg h1, if_pos h2] at heq
      have hlen := congrArg List.length heq
      simp only [List.length_singleton, List.length_append] at hlen
      have hne := alphaSuffixCore_ne_nil (m1 / 26 - 1)
      have hpos := List.length_pos.mpr hne
      omega
    · rw [if_neg h1, if_neg h2] at heq
      obtain ⟨hxs, hc⟩ := List.append_inj' heq (by simp)
      injection hc with hc _
      have hmod : m1 % 26 = m2 % 26 := by
        have hx := alphaChar_inj ⟨m1 % 26, Nat.mod_lt _ (by norm_num)⟩
          ⟨m2 % 26, Nat.mod_lt _ (by norm_num)⟩ hc
        exact congrArg Fin.val hx
      have hdiv := ih (m1 / 26 - 1) (by omega) (m2 / 26 - 1) hxs
      omega

/-- Distinct duplicate counts over the same base give distinct keys
(ordered case). -/
theorem keyFor_ne_of_lt {B : String} {m n : Nat} (hmn : m < n) :
    keyFor B m ≠ keyFor B n := by
  have hlen : ∀ k : Nat, 0 < k → (alphaSuffix (k : Int)).length = (alphaSuffixCore (k - 1)).length ∧
      0 < (alphaSuffixCore (k - 1)).length := by
    intro k hk
    have hns : ¬ ((k : Int) ≤ 0) := by omega
    have harg : ((k : Int) - 1).toNat = k - 1 := by omega
    constructor
    · simp only [alphaSuffix, if_neg hns, harg, String.length_mk]
    · exact List.length_pos.mpr (alphaSuffixCore_ne_nil (k - 1))
  intro heq
  rcases Nat.eq_zero_or_pos m with hm | hm
  · subst hm
    have hn : 0 < n := hmn
    rw [keyFor, keyFor, if_pos rfl, if_neg (by omega)] at heq
    have hle := congrArg String.length heq
    rw [String.length_append] at hle
    have := (hlen n hn).1
    have := (hlen n hn).2
    omega
  · have hn : 0 < n := by omega
    rw [keyFor, keyFor, if_neg (by omega), if_neg (by omega)] at heq
    have hdata := congrArg String.data heq
    rw [String.data_append, String.data_append] at hdata
    have hsuf := List.append_cancel_left hdata
    have hns_m : ¬ ((m : Int) ≤ 0) := by omega
    have hns_n : ¬ ((n : Int) ≤ 0) := by omega
    have hm' : ((m : Int) - 1).toNat = m - 1 := by omega
    have hn' : ((n : Int) - 1).toNat = n - 1 := by omega
    simp only [alphaSuffix, if_neg hns_m, if_neg hns_n, hm', hn'] at hsuf
    have hcore : alphaSuffixCore (m - 1) = alphaSuffixCore (n - 1) := hsuf
    have := alphaSuffixCore_inj (m - 1) (n - 1) hcore
    omega

/-- Distinct duplicate counts over the same base give distinct keys. -/
theorem keyFor_ne {B : String} {m n : Nat} (h : m ≠ n) : keyFor B m ≠ keyFor B n := by
  rcases Nat.lt_or_gt_of_ne h with h' | h'
  · exact keyFor_ne_of_lt h'
  · exact (keyFor_ne_of_lt h').symm

/-- A strictly larger prefix of positions satisfying `p`, when `p`
holds at the added position `i`. -/
theorem filter_range_length_lt (p : Nat → Bool) (i j : Nat) (hij : i < j)
    (hpi : p i = true) :
    ((List.range i).filter p).length < ((List.range j).filter p).length := by
  induction j with
  | zero => omega
  | succ k ihk =>
    rcases Nat.lt_succ_iff_lt_or_eq.mp hij with h | h
    · have hlt := ihk h
      rw [List.range_succ, List.filter_append, List.length_append]
      omega
    · subst h
      rw [List.range_succ, List.filter_append, List.length_append]
      simp [hpi]

theorem effCount_cons (ref : Reference) (rest : List Reference)
    (start j : Nat) (B : String) :
    effCount (ref :: rest) start (j + 1) B =
      (if effBaseAt ref start = B then 1 else 0) + effCount rest (start + 1) j B := by
  unfold effCount
  rw [List.range_succ_eq_map, List.filter_cons]
  have hshift : (((List.range j).map Nat.succ).filter
      (fun j' => decide (effBaseAt ((ref :: rest).getD j' {}) (start + j') = B))).length =
      ((List.range j).filter
        (fun j' => decide (effBaseAt (rest.getD j' {}) (start + 1 + j') = B))).length := by
    rw [List.filter_map, List.length_map]
    apply congrArg List.length
    apply List.filter_congr
    intro a _
    simp only [Function.comp_apply, List.getD_cons_succ]
    have harith : start + (a + 1) = start + 1 + a := by omega
    rw [harith]
  simp only [List.getD_cons_zero, Nat.add_zero]
  by_cases hc : effBaseAt ref start = B
  · rw [if_pos (by exact decide_eq_true hc), if_pos hc]
    simp only [List.length_cons, hshift]
    omega
  · rw [if_neg (fun hdec => hc (of_decide_eq_true hdec)), if_neg hc]
    simp only [hshift]
    omega

theorem genBibKeysLoop_spec :
    ∀ (rest : List Reference) (start : Nat) (seen : String → Nat),
      (genBibKeysLoop rest start seen).length = rest.length ∧
      ∀ k, k < rest.length →
        (genBibKeysLoop rest start seen).getD k "" =
          keyFor (effBaseAt (rest.getD k {}) (start + k))
            (seen (effBaseAt (rest.getD k {}) (start + k)) +
              effCount rest start k (effBaseAt (rest.getD k {}) (start + k))) := by
  intro rest
  induction rest with
  | nil =>
    intro start seen
    exact ⟨rfl, fun k hk => absurd hk (by simp)⟩
  | cons ref rest' ih =>
    intro start seen
    constructor
    · simp only [genBibKeysLoop, List.length_cons]
      exact congrArg (· + 1) (ih (start + 1) _).1
    · intro k hk
      match k with
      | 0 =>
        simp only [genBibKeysLoop, List.getD_cons_zero, Nat.add_zero, effCount,
          List.range_zero, List.filter_nil, List.length_nil]
        rfl
      | j + 1 =>
        have hj : j < rest'.length := by simpa using hk
        have hstep : (genBibKeysLoop (ref :: rest') start seen).getD (j + 1) "" =
            (genBibKeysLoop rest' (start + 1)
              (fun b => if b = effBaseAt ref start then seen (effBaseAt ref start) + 1
                else seen b)).getD j "" := rfl
        rw [hstep, (ih (start + 1) _).2 j hj]
        rw [effCount_cons]
        have harith : start + 1 + j = start + (j + 1) := by omega
        rw [harith]
        simp only [List.getD_cons_succ]
        by_cases hbb : effBaseAt (rest'.getD j {}) (start + (j + 1)) = effBaseAt ref start
        · rw [if_pos hbb, if_pos (hbb.symm)]
          apply congrArg (keyFor _)
          rw [hbb]
          omega
        · rw [if_neg hbb, if_neg (fun h => hbb h.symm)]
          apply congrArg (keyFor _)
          omega

/-- First reference of the collision batch: 61 `a`s as the author
string and no year, giving base key `aa…and` (61 `a`s + `"nd"`). -/
def collideRefA : Reference :=
  { authors := String.mk (List.replicate 61 'a'), year := "" }

/-- Second reference of the collision batch: its 64-character author
token runs into the 64-character key cap, giving base key
`aa…anda` — the first reference's base plus the letter `a`. -/
def collideRefB : Reference :=
  { authors := String.mk (List.replicate 61 'a') ++ "nda", year := "" }

/-- **C7, counterexample.** Citation-key generation can emit two
identical keys in one batch: with bases `B` and `B ++ "a"` present, the
second occurrence of `B` receives suffix `"a"` and collides with the
reference whose base is already `B ++ "a"`. -/
theorem C7_counterexample :
    generateBibTeXCitationKeys [collideRefA, collideRefB, collideRefA] =
      [String.mk (List.replicate 61 'a') ++ "nd",
       String.mk (List.replicate 61 'a') ++ "nda",
       String.mk (List.replicate 61 'a') ++ "nda"] ∧
    ¬ (generateBibTeXCitationKeys [collideRefA, collideRefB, collideRefA]).Nodup := by
  constructor
  · rfl
  · intro h
    have h12 : (generateBibTeXCitationKeys
        [collideRefA, collideRefB, collideRefA]).Nodup = false := by decide
    rw [h12] at h
    cases h

/-- **C7, amended.** Within one batch the keys are generated
positionally: the reference at index `i` receives its effective base
key plus the base-26 letter suffix of the number of earlier references
with the same base (`""`, `"a"`, `"b"`, … in encounter order), and two
references with the *same* effective base always receive distinct keys;
uniqueness across *different* bases can still fail (see the
counterexample) when one base equals another plus a letter suffix. -/
theorem C7_bibtex_keys (refs : List Reference) :
    (generateBibTeXCitationKeys refs).length = refs.length ∧
    (∀ i, i < refs.length →
      (generateBibTeXCitationKeys refs).getD i "" =
        keyFor (effBaseAt (refs.getD i {}) i)
          (effCount refs 0 i (effBaseAt (refs.getD i {}) i))) ∧
    (∀ i j, i < j → j < refs.length →
      effBaseAt (refs.getD i {}) i = effBaseAt (refs.getD j {}) j →
      (generateBibTeXCitationKeys refs).getD i "" ≠
        (generateBibTeXCitationKeys refs).getD j "") := by
  obtain ⟨hlen, hget⟩ := genBibKeysLoop_spec refs 0 (fun _ => 0)
  have hget0 : ∀ i, i < refs.length →
      (generateBibTeXCitationKeys refs).getD i "" =
        keyFor (effBaseAt (refs.getD i {}) i)
          (effCount refs 0 i (effBaseAt (refs.getD i {}) i)) := by
    intro i hi
    have h := hget i hi
    simp only [Nat.zero_add] at h
    exact h
  refine ⟨hlen, hget0, ?_⟩
  intro i j hij hj hBeq
  have hi : i < refs.length := lt_trans hij hj
  rw [hget0 i hi, hget0 j hj, hBeq]
  apply keyFor_ne
  have hcnt : effCount refs 0 i (effBaseAt (refs.getD j {}) j) <
      effCount refs 0 j (effBaseAt (refs.getD j {}) j) := by
    unfold effCount
    apply filter_range_length_lt _ i j hij
    simp only [Nat.zero_add]
    exact decide_eq_true hBeq
  exact Nat.ne_of_lt hcnt

/-- Witness for C7 (amended): in a batch with bases `X`, `X`, `Y`, `X`,
the three `X` references receive `X`, `Xa`, `Xb` and are pairwise
distinct. -/
theorem C7_bibtex_keys_witness :
    generateBibTeXCitationKeys
      [{ authors := "Smith", year := "2020" }, { authors := "Smith", year := "2020" },
       { authors := "Jones", year := "2021" }, { authors := "Smith", year := "2020" }] =
      ["Smith2020", "Smith2020a", "Jones2021", "Smith2020b"] ∧
    (generateBibTeXCitationKeys
      [{ authors := "Smith", year := "2020" }, { authors := "Smith", year := "2020" },
       { authors := "Jones", year := "2021" }, { authors := "Smith", year := "2020" }]).getD 0 "" ≠
    (generateBibTeXCitationKeys
      [{ authors := "Smith", year := "2020" }, { authors := "Smith", year := "2020" },
       { authors := "Jones", year := "2021" }, { authors := "Smith", year := "2020" }]).getD 1 "" := by
  constructor
  · rfl
  · exact (C7_bibtex_keys
      [{ authors := "Smith", year := "2020" }, { authors := "Smith", year := "2020" },
       { authors := "Jones", year := "2021" }, { authors := "Smith", year := "2020" }]).2.2
      0 1 (by decide) (by decide) (by decide)

/-! ## Claim C1 — reference ordering and the `sort.Slice` contract -/

/-- Non-increasing relevance order, as the comparison closure passed to
`sort.Slice` demands of the sorted slice. -/
def sortedByScoreDesc : List ScoredPaper → Bool
  | [] => true
  | [_] => true
  | a :: b :: rest =>
    (b.relevanceScore ≤ a.relevanceScore) && sortedByScoreDesc (b :: rest)

/-- Go documents `sort.Slice` as sorting by the given less function
without any stability guarantee. Its contract therefore determines the
output only up to: a permutation of the input that is non-increasing in
relevance score. -/
def sortSliceSpec (l out : List ScoredPaper) : Prop :=
  l.Perm out ∧ sortedByScoreDesc out = true

/-- The fetched articles of the C1 run: 13 documents, PMIDs 1..13. -/
def c1Article (i : Nat) : Article := { pmid := toString i, title := "T" }

/-- The 13 fetched articles. -/
def c1Articles : List Article := (List.range 13).map (fun k => c1Article (k + 1))

/-- The scored list the pipeline builds: odd PMIDs score 8, even 7
(threshold 7, so all pass the filter). -/
def c1Scored : List ScoredPaper :=
  (List.range 13).map (fun k =>
    { article := c1Article (k + 1), relevanceScore := if k % 2 = 0 then 8 else 7 })

/-- A stable descending arrangement of `c1Scored`: the seven 8s in
scoring order, then the six 7s in scoring order. -/
def c1Out1 : List ScoredPaper :=
  ([0, 2, 4, 6, 8, 10, 12].map (fun k : Nat =>
    ({ article := c1Article (k + 1), relevanceScore := 8 } : ScoredPaper))) ++
  ([1, 3, 5, 7, 9, 11].map (fun k : Nat =>
    ({ article := c1Article (k + 1), relevanceScore := 7 } : ScoredPaper)))

/-- The same arrangement with the last two tied 7s swapped — equally
valid under the `sort.Slice` contract. -/
def c1Out2 : List ScoredPaper :=
  ([0, 2, 4, 6, 8, 10, 12].map (fun k : Nat =>
    ({ article := c1Article (k + 1), relevanceScore := 8 } : ScoredPaper))) ++
  ([1, 3, 5, 7, 11, 9].map (fun k : Nat =>
    ({ article := c1Article (k + 1), relevanceScore := 7 } : ScoredPaper)))

/-- A sort that behaves like the stable arrangement on the C1 run. -/
def c1SortA : List ScoredPaper → List ScoredPaper :=
  fun l => if l = c1Scored then c1Out1 else l

/-- A contract-equivalent sort that breaks the tie differently. -/
def c1SortB : List ScoredPaper → List ScoredPaper :=
  fun l => if l = c1Scored then c1Out2 else l

/-- The engine of the C1 run: search finds 13 identifiers, fetch
returns the 13 articles, the LLM scores call `k` with 8 for even `k`
and 7 for odd `k` (and answers the final synthesis prompt). -/
def c1Engine : Engine :=
  { llm := some (fun idx _ _ => .ok (if idx % 2 = 0 then "8" else "7"))
    search := fun _ _ => .ok { count := 13, ids := (List.range 13).map (fun k => toString (k + 1)) }
    fetch := fun _ => .ok c1Articles
    cfg := { papersToUse := 13, papersToSearch := 30, relevanceThreshold := 7,
             targetWords := 250, citationStyle := "apa" } }

set_option maxHeartbeats 2000000 in
/-- **C1.** On a filtered set of 13 documents with tied scores, the
contract of `sort.Slice` (Go documents it as not stable) does not
determine the tie order: two sorting functions that both produce a
non-increasing permutation of the scored documents — one preserving
scoring order on ties, one not — drive `Synthesize` to two different
`References` lists. Every emitted reference still scores at or above
the threshold and in non-increasing order, but the claimed tie-breaking
by scoring order is not guaranteed by the code's sort call. -/
theorem C1_sort_slice_underdetermined :
    sortSliceSpec c1Scored c1Out1 ∧
    sortSliceSpec c1Scored c1Out2 ∧
    c1Out1 ≠ c1Out2 ∧
    (Synthesize c1SortA c1Engine "q").toOption.map
      (fun r => r.references.map Reference.pmid) =
      some ["1", "3", "5", "7", "9", "11", "13", "2", "4", "6", "8", "10", "12"] ∧
    (Synthesize c1SortB c1Engine "q").toOption.map
      (fun r => r.references.map Reference.pmid) =
      some ["1", "3", "5", "7", "9", "11", "13", "2", "4", "6", "8", "12", "10"] ∧
    (Synthesize c1SortA c1Engine "q").toOption.map
      (fun r => r.references.map Reference.pmid) ≠
    (Synthesize c1SortB c1Engine "q").toOption.map
      (fun r => r.references.map Reference.pmid) := by
  refine ⟨⟨by decide, by decide⟩, ⟨by decide, by decide⟩, by decide, rfl, rfl, ?_⟩
  intro h
  rw [show (Synthesize c1SortA c1Engine "q").toOption.map
      (fun r => r.references.map Reference.pmid) =
      some ["1", "3", "5", "7", "9", "11", "13", "2", "4", "6", "8", "10", "12"] from rfl,
    show (Synthesize c1SortB c1Engine "q").toOption.map
      (fun r => r.references.map Reference.pmid) =
      some ["1", "3", "5", "7", "9", "11", "13", "2", "4", "6", "8", "12", "10"] from rfl] at h
  exact absurd h (by decide)

end PubmedCLI
